import Mathlib

/-!
Verification of the zrunner test harness (`src/zrunner/__init__.py`, the
canonical runner of the repository, also wired to the CLI in
`src/zrunner/run.py`).  The Python code is shallowly embedded: the runner's
result dictionaries become Lean structures, the lifecycle methods become pure
functions threading an explicit state, and exceptions raised by user-supplied
test bodies and hooks are modelled by an inductive `Behavior` describing what
a Python callable does when invoked.  Wall-clock timing is abstracted: the
per-test `time` string recorded by `_time_taken` is omitted from records, and
the run-level `time_taken` float is modelled as a natural number supplied as
a parameter.
-/

/-! ## NameMatcher: `_VALID_TEST_NAME`, the compiled pattern
`(?:^|[ backspace _ . slash - ])[Tt]est`, used everywhere via `.match`,
i.e. anchored at position 0 of the name. -/

/-- The character class of the pattern: backspace (`\b` inside a class is
the backspace control character), underscore, dot, slash, hyphen. -/
def isSep (c : Char) : Bool :=
  c == '\x08' || c == '_' || c == '.' || c == '/' || c == '-'

/-- The subpattern `[Tt]est` tested at the head of a character list. -/
def testWord : List Char → Bool
  | c :: 'e' :: 's' :: 't' :: _ => c == 'T' || c == 't'
  | _ => false

/-- `bool(_VALID_TEST_NAME.match(s))`: `re.match` tries the pattern only at
position 0, so either `[Tt]est` matches at index 0 (the `^` alternative) or
the first character is a separator and `[Tt]est` matches at index 1. -/
def isTestName (s : String) : Bool :=
  match s.data with
  | [] => false
  | c :: rest => testWord (c :: rest) || (isSep c && testWord rest)

/-- Modelled from the spec: "`isTestName(n)` is true iff `n` matches
`test`/`Test` immediately after index 0 or after one of the separator
characters" — i.e. a search anywhere in the string, the first Boolean
argument recording whether the current position is the start of the string
or preceded by a separator. -/
def searchFrom : Bool → List Char → Bool
  | _, [] => false
  | ok, c :: rest => (ok && testWord (c :: rest)) || searchFrom (isSep c) rest

/-- Modelled from the spec: the unanchored matcher the spec sentence
describes (`test`/`Test` beginning at index 0 or immediately after a
separator character anywhere in the name). -/
def spec_isTestName (s : String) : Bool :=
  searchFrom true s.data

/-! ## Data model: the result dictionaries of `ZRunner` -/

/-- The `status` strings stored in testcase records. -/
inductive Status where
  | passed
  | failure
  | error
  | skipped
deriving DecidableEq, Repr

/-- One record of `self._results["testcases"]`.  Keys absent from a given
record (Python dicts have per-record key sets) are `none`; the wall-clock
`time` key is abstracted away. -/
structure TestCase where
  name : String
  status : Status
  msg : Option String := none
  error : Option String := none
  message : Option String := none
  traceback : Option String := none
deriving DecidableEq, Repr

/-- `self._results["summary"]`. -/
structure Summary where
  passes : Nat := 0
  failures : Nat := 0
  errors : Nat := 0
  skips : Nat := 0
deriving DecidableEq, Repr

/-- `self._results` (and the global `_full_results`): summary, ordered
testcase list, and elapsed time (abstracted to `Nat`). -/
structure Results where
  summary : Summary := {}
  testcases : List TestCase := []
  time_taken : Nat := 0
deriving DecidableEq, Repr

/-- `sum(summary.values())`. -/
def sumSummary (s : Summary) : Nat :=
  s.passes + s.failures + s.errors + s.skips

/-! ## Python callables and modules -/

/-- What a Python callable does when invoked with no arguments: return
normally, raise `AssertionError`, raise the runner's `Skip` exception
(`args[0]` is the reason), or raise any other exception.  The raising
constructors carry `str(error)` and the `traceback.format_exc()` text. -/
inductive Behavior where
  | ret
  | assertionError (err tb : String)
  | skip (reason tb : String)
  | exc (err tb : String)
deriving DecidableEq, Repr

/-- One module-level symbol considered by the runner: its name, what calling
it does, the `__test_skip__` marker set by the skip decorator, and whether
`isinstance(test, (types.FunctionType, types.MethodType))` holds. -/
structure TestSym where
  name : String
  behavior : Behavior
  skipMarked : Bool := false
  isFunction : Bool := true
deriving DecidableEq, Repr

/-- `ZRunner._skip(msg)` applied to a symbol: the returned wrapper keeps the
symbol's `__name__`, raises `Skip(msg)` when called, carries
`__test_skip__ = True`, and is itself a function. -/
def skipDecorator (msg : String) (t : TestSym) : TestSym :=
  { name := t.name, behavior := Behavior.skip msg "", skipMarked := true,
    isFunction := true }

/-- A loaded module as the runner sees it: its location (`module._location`
or `module.__file__`), the optional lifecycle hooks, and its symbol table in
`dir(module)` enumeration order. -/
structure PyModule where
  location : String
  before_all : Option Behavior := none
  after_all : Option Behavior := none
  before : Option Behavior := none
  after : Option Behavior := none
  symbols : List TestSym := []
deriving DecidableEq, Repr

/-- Instrumentation: observable invocations performed by the runner, in
order.  An event is recorded each time a user-supplied hook or test callable
is actually called. -/
inductive Event where
  | beforeAllCall (loc : String)
  | afterAllCall (loc : String)
  | beforeCall (loc : String)
  | afterCall (name : String)
  | testCall (name : String)
deriving DecidableEq, Repr

/-- Execution state: the runner's `_results` plus instrumentation — the
event trace and a count of records appended by `_add_helper_error` (which
appends to `testcases` without touching any summary counter). -/
structure RunState where
  results : Results := {}
  events : List Event := []
  helpers : Nat := 0
deriving DecidableEq, Repr

/-- The fresh state produced by `_reset`. -/
def initState : RunState := {}

/-- Append one invocation event. -/
def emit (st : RunState) (e : Event) : RunState :=
  { st with events := st.events ++ [e] }

/-! ## The record builders `_add_success` … `_add_helper_error` -/

def RED : String := "\x1b[1;31m"
def BLUE : String := "\x1b[1;34m"
def YELLOW : String := "\x1b[0;33m"
def RESET : String := "\x1b[0;0m"
def FAIL_LENGTH : Nat := 6
def ERROR_LENGTH : Nat := 7

/-- `"=" * n`, `"-" * n`. -/
def srep (n : Nat) (c : Char) : String :=
  String.mk (List.replicate n c)

/-- `ZRunner._add_success`. -/
def add_success (nm : String) (st : RunState) : RunState :=
  { st with results := { st.results with
      summary := { st.results.summary with
        passes := st.results.summary.passes + 1 },
      testcases := st.results.testcases ++
        [{ name := nm, status := Status.passed }] } }

/-- `ZRunner._add_failure`. -/
def add_failure (nm err tb : String) (st : RunState) : RunState :=
  let length := nm.length + FAIL_LENGTH
  let msg := srep length '=' ++ "\nFAIL: " ++ nm ++ "\n" ++ srep length '-'
  let str_msg := RED ++ msg ++ RESET
  let str_error := RED ++ (err ++ "\n" ++ tb) ++ RESET
  { st with results := { st.results with
      summary := { st.results.summary with
        failures := st.results.summary.failures + 1 },
      testcases := st.results.testcases ++
        [{ name := nm, status := Status.failure, msg := some str_msg,
           error := some str_error, traceback := some tb }] } }

/-- `ZRunner._add_error`. -/
def add_error (nm err tb : String) (st : RunState) : RunState :=
  let length := nm.length + ERROR_LENGTH
  let msg := srep length '=' ++ "\nERROR: " ++ nm ++ "\n" ++ srep length '-'
  let str_msg := YELLOW ++ msg ++ RESET
  let str_error := YELLOW ++ (err ++ "\n" ++ tb) ++ RESET
  { st with results := { st.results with
      summary := { st.results.summary with
        errors := st.results.summary.errors + 1 },
      testcases := st.results.testcases ++
        [{ name := nm, status := Status.error, msg := some str_msg,
           error := some str_error, traceback := some tb }] } }

/-- `ZRunner._add_skip`. -/
def add_skip (nm skip_msg : String) (st : RunState) : RunState :=
  let length := nm.length + FAIL_LENGTH
  let msg := srep length '=' ++ "\nSKIP: " ++ nm ++ "\n" ++ srep length '-'
  let str_msg := BLUE ++ msg ++ RESET
  let str_skip := BLUE ++ skip_msg ++ RESET
  { st with results := { st.results with
      summary := { st.results.summary with
        skips := st.results.summary.skips + 1 },
      testcases := st.results.testcases ++
        [{ name := nm, status := Status.skipped, msg := some str_msg,
           error := some str_skip, message := some skip_msg }] } }

/-- `ZRunner._add_helper_error`: appends an error-status record but — unlike
the four adders above — increments no summary counter.  The instrumentation
counter `helpers` tracks how many such records exist. -/
def add_helper_error (nm err tb : String) (st : RunState) : RunState :=
  let length := nm.length + ERROR_LENGTH
  let msg := srep length '=' ++ "\nERROR: " ++ nm ++ "\n" ++ srep length '-'
  let str_msg := YELLOW ++ msg ++ RESET
  let str_error := RED ++ (err ++ "\n" ++ tb) ++ RESET
  { st with
    results := { st.results with
      testcases := st.results.testcases ++
        [{ name := nm, status := Status.error, msg := some str_msg,
           error := some str_error, traceback := some tb }] },
    helpers := st.helpers + 1 }

/-! ## The lifecycle runner `_execute_test`, `_before_all`, `_after_all`,
`_before`, `_after`, `_execute_report_tests` -/

/-- The `try … except AssertionError … except Skip … except BaseException`
ladder of `_execute_test` around the test body: classify what propagated out
of `self._before(module)` / `test()` into one recorded outcome. -/
def classify_outcome (nm : String) (b : Behavior) (st : RunState) : RunState :=
  match b with
  | Behavior.ret => add_success nm st
  | Behavior.assertionError e tb => add_failure nm e tb st
  | Behavior.skip r _ => add_skip nm ("SkipTest: " ++ r ++ "\n") st
  | Behavior.exc e tb => add_error nm e tb st

/-- The body of `_execute_test`'s `try` block: unless the test carries the
skip marker, `self._before(module)` is invoked first and anything it raises
propagates into the same classification; if it returns (or there is no
`before` hook), the test callable itself is invoked. -/
def run_body (m : PyModule) (t : TestSym) (nm : String) (st : RunState) :
    RunState :=
  if t.skipMarked then
    classify_outcome nm t.behavior (emit st (Event.testCall nm))
  else
    match m.before with
    | none => classify_outcome nm t.behavior (emit st (Event.testCall nm))
    | some Behavior.ret =>
        classify_outcome nm t.behavior
          (emit (emit st (Event.beforeCall m.location)) (Event.testCall nm))
    | some (Behavior.assertionError e tb) =>
        classify_outcome nm (Behavior.assertionError e tb)
          (emit st (Event.beforeCall m.location))
    | some (Behavior.skip r tb) =>
        classify_outcome nm (Behavior.skip r tb)
          (emit st (Event.beforeCall m.location))
    | some (Behavior.exc e tb) =>
        classify_outcome nm (Behavior.exc e tb)
          (emit st (Event.beforeCall m.location))

/-- The behavior that reaches `_execute_test`'s classification ladder: the
test body's own behavior, except that when the test is not skip-marked and a
`before` hook raises, the hook's exception is routed into the ladder. -/
def effective_behavior (m : PyModule) (t : TestSym) : Behavior :=
  if t.skipMarked then t.behavior
  else
    match m.before with
    | none => t.behavior
    | some Behavior.ret => t.behavior
    | some b => b

/-- `ZRunner._after`: invoke the optional `after` hook; anything it raises
(`except BaseException`) is recorded via `_add_helper_error` keyed at the
test's qualified name. -/
def after_hook (m : PyModule) (nm : String) (st : RunState) : RunState :=
  match m.after with
  | none => st
  | some Behavior.ret => emit st (Event.afterCall nm)
  | some (Behavior.assertionError e tb) =>
      add_helper_error nm e tb (emit st (Event.afterCall nm))
  | some (Behavior.skip r tb) =>
      add_helper_error nm r tb (emit st (Event.afterCall nm))
  | some (Behavior.exc e tb) =>
      add_helper_error nm e tb (emit st (Event.afterCall nm))

/-- `ZRunner._execute_test`: resolve the symbol, return silently if it is
not function-like, otherwise run the guarded `before`, the body, the
classification, and finally — only when the test is not skip-marked — the
`after` hook. -/
def execute_test (m : PyModule) (t : TestSym) (st : RunState) : RunState :=
  let nm := m.location ++ "." ++ t.name
  if t.isFunction then
    let st1 := run_body m t nm st
    if t.skipMarked then st1 else after_hook m nm st1
  else st

/-- `ZRunner._before_all`: invoke the optional `before_all` hook.  A raised
`Skip` records a skipped outcome keyed at the module location and returns
`true` (the suite is aborted); any other exception records a helper error
and the suite still runs. -/
def before_all_hook (m : PyModule) (st : RunState) : RunState × Bool :=
  match m.before_all with
  | none => (st, false)
  | some Behavior.ret => (emit st (Event.beforeAllCall m.location), false)
  | some (Behavior.skip r _) =>
      (add_skip m.location ("SkipTest: " ++ r ++ "\n")
        (emit st (Event.beforeAllCall m.location)), true)
  | some (Behavior.assertionError e tb) =>
      (add_helper_error m.location e tb
        (emit st (Event.beforeAllCall m.location)), false)
  | some (Behavior.exc e tb) =>
      (add_helper_error m.location e tb
        (emit st (Event.beforeAllCall m.location)), false)

/-- `ZRunner._after_all`: invoke the optional `after_all` hook; anything it
raises is recorded as a helper error keyed at the module location. -/
def after_all_hook (m : PyModule) (st : RunState) : RunState :=
  match m.after_all with
  | none => st
  | some Behavior.ret => emit st (Event.afterAllCall m.location)
  | some (Behavior.assertionError e tb) =>
      add_helper_error m.location e tb (emit st (Event.afterAllCall m.location))
  | some (Behavior.skip r tb) =>
      add_helper_error m.location r tb (emit st (Event.afterAllCall m.location))
  | some (Behavior.exc e tb) =>
      add_helper_error m.location e tb (emit st (Event.afterAllCall m.location))

/-- Python `method.startswith("_")`: the first character is an
underscore. -/
def startsWithUnderscore (s : String) : Bool :=
  match s.data with
  | c :: _ => c == '_'
  | [] => false

/-- The symbol enumeration of `_execute_report_tests`:
`if not method.startswith("_") and _VALID_TEST_NAME.match(method)`. -/
def enum_tests (m : PyModule) : List TestSym :=
  m.symbols.filter fun t => !(startsWithUnderscore t.name) && isTestName t.name

/-- One iteration of the module loop of `_execute_report_tests` (default
mode, no single-test selection): suite setup, the qualifying tests, suite
teardown — unless `_before_all` reported a `Skip`, in which case the whole
suite is dropped (`continue`). -/
def run_module (m : PyModule) (st : RunState) : RunState :=
  let p := before_all_hook m st
  if p.2 then p.1
  else
    after_all_hook m
      ((enum_tests m).foldl (fun s t => execute_test m t s) p.1)

/-- The module loop of `ZRunner._execute_report_tests` over the discovered
modules, starting from the freshly reset state. -/
def run_all (modules : List PyModule) : RunState :=
  modules.foldl (fun s m => run_module m s) initState

/-- The tail of `_execute_report_tests`: store the elapsed time and compute
`fail_status`, returning `1` when the summary shows failures or errors and
`0` otherwise. -/
def execute_report_tests (modules : List PyModule) (time_taken : Nat) :
    RunState × Nat :=
  let st := run_all modules
  let st := { st with results := { st.results with time_taken := time_taken } }
  if 0 < st.results.summary.failures ∨ 0 < st.results.summary.errors then
    (st, 1)
  else (st, 0)

/-- `ZRunner._add_to_full_results`: fold one run's results into the
cross-run aggregate `_full_results` used by deferred (batch) reporting. -/
def add_to_full_results (full res : Results) : Results :=
  { summary :=
      { passes := full.summary.passes + res.summary.passes,
        failures := full.summary.failures + res.summary.failures,
        errors := full.summary.errors + res.summary.errors,
        skips := full.summary.skips + res.summary.skips },
    testcases := full.testcases ++ res.testcases,
    time_taken := full.time_taken + res.time_taken }

/-! ## The module-name computation of `_import_file_module` -/

/-- Python `s.rstrip(chars)`: remove every trailing character that occurs in
`chars` (not the suffix `chars` as a unit). -/
def pyRstrip (s : String) (chars : List Char) : String :=
  String.mk ((s.data.reverse.dropWhile fun c => chars.contains c).reverse)

/-- Whether the first list is a prefix of the second. -/
def isPrefixList : List Char → List Char → Bool
  | [], _ => true
  | _ :: _, [] => false
  | a :: as, b :: bs => a == b && isPrefixList as bs

/-- Worker for Python `str.split(sep)` with non-empty `sep`, scanning left
to right and consuming the separator at each match.  The fuel argument is an
upper bound on the number of remaining characters, so the recursion is
structural (and hence computes by reduction); the fuel-exhausted branch is
unreachable when the fuel starts at the input length. -/
def pySplitFuel (sep : List Char) : Nat → List Char → List Char →
    List (List Char)
  | _, [], acc => [acc.reverse]
  | 0, cs, acc => [acc.reverse ++ cs]
  | Nat.succ n, c :: rest, acc =>
      if isPrefixList sep (c :: rest) then
        acc.reverse :: pySplitFuel sep n (List.drop (sep.length - 1) rest) []
      else pySplitFuel sep n rest (c :: acc)

/-- Python `s.split(sep)` for a non-empty separator (Python raises
`ValueError` on an empty separator; that case is never exercised here). -/
def pySplit (s sep : String) : List String :=
  (pySplitFuel sep.data s.data.length s.data []).map fun l => String.mk l

/-- Python `s[:-1]`. -/
def pyDropLast (s : String) : String :=
  String.mk (s.data.take (s.data.length - 1))

/-- Python `s.replace(a, b)` for a one-character pattern and replacement:
every occurrence of `a` becomes `b`. -/
def pyReplaceChar (s : String) (a b : Char) : String :=
  String.mk (s.data.map fun c => if c == a then b else c)

/-- The name computation of `ZRunner._import_file_module` (identical in
`_import_test_module`): returns the `name` and `package` arguments passed to
`import_module`.  `basename` is the last `/`-component of the file path with
`rstrip(".py")` applied; the dotted package path comes from the part of the
file path between the search root and the base name. -/
def import_file_module_name (file_path path : String) : String × String :=
  let basename_with_extension := (pySplit file_path "/").getLastD ""
  let basename := pyRstrip basename_with_extension ['.', 'p', 'y']
  let relative_path := (pySplit file_path path).getD 1 ""
  let relative_path :=
    (pySplit relative_path basename_with_extension).getD 0 ""
  let dotted_path := pyReplaceChar (pyDropLast relative_path) '/' '.'
  let basename := if dotted_path ≠ "" then "." ++ basename else basename
  (basename, dotted_path)

/-! ## General lemmas about the runner state -/

/-- The bookkeeping relation maintained by every record builder: the number
of testcase records equals the summary total plus the number of records that
came from `_add_helper_error`. -/
def StateInv (st : RunState) : Prop :=
  st.results.testcases.length = sumSummary st.results.summary + st.helpers

theorem stateInv_init : StateInv initState := by
  simp [StateInv, initState, sumSummary]

theorem stateInv_emit (st : RunState) (e : Event) (h : StateInv st) :
    StateInv (emit st e) := h

theorem stateInv_add_success (nm : String) (st : RunState) (h : StateInv st) :
    StateInv (add_success nm st) := by
  simp only [StateInv, add_success, sumSummary, List.length_append,
    List.length_cons, List.length_nil] at h ⊢
  omega

theorem stateInv_add_failure (nm err tb : String) (st : RunState)
    (h : StateInv st) : StateInv (add_failure nm err tb st) := by
  simp only [StateInv, add_failure, sumSummary, List.length_append,
    List.length_cons, List.length_nil] at h ⊢
  omega

theorem stateInv_add_error (nm err tb : String) (st : RunState)
    (h : StateInv st) : StateInv (add_error nm err tb st) := by
  simp only [StateInv, add_error, sumSummary, List.length_append,
    List.length_cons, List.length_nil] at h ⊢
  omega

theorem stateInv_add_skip (nm skip_msg : String) (st : RunState)
    (h : StateInv st) : StateInv (add_skip nm skip_msg st) := by
  simp only [StateInv, add_skip, sumSummary, List.length_append,
    List.length_cons, List.length_nil] at h ⊢
  omega

theorem stateInv_add_helper_error (nm err tb : String) (st : RunState)
    (h : StateInv st) : StateInv (add_helper_error nm err tb st) := by
  simp only [StateInv, add_helper_error, sumSummary, List.length_append,
    List.length_cons, List.length_nil] at h ⊢
  omega

theorem stateInv_classify (nm : String) (b : Behavior) (st : RunState)
    (h : StateInv st) : StateInv (classify_outcome nm b st) := by
  cases b with
  | ret => exact stateInv_add_success _ _ h
  | assertionError e tb => exact stateInv_add_failure _ _ _ _ h
  | skip r tb => exact stateInv_add_skip _ _ _ h
  | exc e tb => exact stateInv_add_error _ _ _ _ h

theorem stateInv_run_body (m : PyModule) (t : TestSym) (nm : String)
    (st : RunState) (h : StateInv st) : StateInv (run_body m t nm st) := by
  cases hsk : t.skipMarked with
  | true =>
      simp only [run_body, hsk, if_true]
      exact stateInv_classify _ _ _ h
  | false =>
      cases hb : m.before with
      | none =>
          simp only [run_body, hsk, hb, Bool.false_eq_true, if_false]
          exact stateInv_classify _ _ _ h
      | some b =>
          cases b <;>
            simp only [run_body, hsk, hb, Bool.false_eq_true, if_false] <;>
            exact stateInv_classify _ _ _ h

theorem stateInv_after_hook (m : PyModule) (nm : String) (st : RunState)
    (h : StateInv st) : StateInv (after_hook m nm st) := by
  cases hb : m.after with
  | none => simpa [after_hook, hb] using h
  | some b =>
      cases b <;> simp only [after_hook, hb] <;>
        first
          | exact h
          | exact stateInv_add_helper_error _ _ _ _ h

theorem stateInv_execute_test (m : PyModule) (t : TestSym) (st : RunState)
    (h : StateInv st) : StateInv (execute_test m t st) := by
  cases hf : t.isFunction with
  | false => simpa [execute_test, hf] using h
  | true =>
      cases hsk : t.skipMarked with
      | true =>
          simp only [execute_test, hf, hsk, if_true]
          exact stateInv_run_body _ _ _ _ h
      | false =>
          simp only [execute_test, hf, hsk, Bool.false_eq_true, if_false,
            if_true]
          exact stateInv_after_hook _ _ _ (stateInv_run_body _ _ _ _ h)

theorem stateInv_before_all (m : PyModule) (st : RunState)
    (h : StateInv st) : StateInv (before_all_hook m st).1 := by
  cases hb : m.before_all with
  | none => simpa [before_all_hook, hb] using h
  | some b =>
      cases b <;> simp only [before_all_hook, hb] <;>
        first
          | exact h
          | exact stateInv_add_helper_error _ _ _ _ h
          | exact stateInv_add_skip _ _ _ h

theorem stateInv_after_all (m : PyModule) (st : RunState)
    (h : StateInv st) : StateInv (after_all_hook m st) := by
  cases hb : m.after_all with
  | none => simpa [after_all_hook, hb] using h
  | some b =>
      cases b <;> simp only [after_all_hook, hb] <;>
        first
          | exact h
          | exact stateInv_add_helper_error _ _ _ _ h

theorem stateInv_foldl_tests (m : PyModule) (l : List TestSym)
    (st : RunState) (h : StateInv st) :
    StateInv (l.foldl (fun s t => execute_test m t s) st) := by
  induction l generalizing st with
  | nil => simpa using h
  | cons t l ih =>
      simp only [List.foldl_cons]
      exact ih _ (stateInv_execute_test _ _ _ h)

theorem stateInv_run_module (m : PyModule) (st : RunState)
    (h : StateInv st) : StateInv (run_module m st) := by
  unfold run_module
  cases hp : (before_all_hook m st).2 with
  | true =>
      simp only [hp, if_true]
      exact stateInv_before_all _ _ h
  | false =>
      simp only [hp, Bool.false_eq_true, if_false]
      exact stateInv_after_all _ _
        (stateInv_foldl_tests _ _ _ (stateInv_before_all _ _ h))

theorem stateInv_run_all (modules : List PyModule) :
    StateInv (run_all modules) := by
  unfold run_all
  have h : ∀ l st, StateInv st →
      StateInv (List.foldl (fun s m => run_module m s) st l) := by
    intro l
    induction l with
    | nil => exact fun st h => by simpa using h
    | cons m l ih =>
        intro st h
        simp only [List.foldl_cons]
        exact ih _ (stateInv_run_module _ _ h)
  exact h _ _ stateInv_init

theorem execute_report_tests_fst (modules : List PyModule) (tt : Nat) :
    (execute_report_tests modules tt).1 =
      { run_all modules with
        results := { (run_all modules).results with time_taken := tt } } := by
  unfold execute_report_tests
  by_cases h : 0 < (run_all modules).results.summary.failures ∨
      0 < (run_all modules).results.summary.errors <;>
    simp only [h, if_pos, if_neg, not_false_iff, if_true, if_false]

theorem execute_report_tests_snd (modules : List PyModule) (tt : Nat) :
    (execute_report_tests modules tt).2 =
      if 0 < (run_all modules).results.summary.failures ∨
          0 < (run_all modules).results.summary.errors then 1 else 0 := by
  unfold execute_report_tests
  by_cases h : 0 < (run_all modules).results.summary.failures ∨
      0 < (run_all modules).results.summary.errors <;>
    simp only [h, if_pos, if_neg, not_false_iff, if_true, if_false]

/-! ## C1: the name matcher -/

/-- C1 counterexample: the claim states that `isTestName` accepts any name
containing `test`/`Test` right after a separator anywhere in the name, with
`"my_test"` as an accepted example; but the matcher is applied with
`re.match`, which anchors at position 0, so `isTestName "my_test"` is
`false` even though the spec's unanchored matcher accepts it. -/
theorem isTestName_unanchored_cex :
    isTestName "my_test" = false ∧ spec_isTestName "my_test" = true := by
  decide

/-- C1 (amended): `isTestName n` is true iff `Test`/`test` begins at index 0
of `n`, or the first character of `n` is one of the separator characters
`_`, `.`, `/`, `-`, backspace and `Test`/`test` begins at index 1 — the
pattern is anchored at the start of the name, so `"test_foo"` and
`"Testing"` are accepted while `"my_test"`, `"mytest"` and `"contest"` are
rejected. -/
theorem isTestName_anchored_iff (s : String) :
    isTestName s = true ↔
      (testWord s.data = true ∨
        ∃ c cs, s.data = c :: cs ∧ isSep c = true ∧ testWord cs = true) := by
  cases h : s.data with
  | nil => simp [isTestName, h, testWord]
  | cons c cs =>
      simp only [isTestName, h, Bool.or_eq_true, Bool.and_eq_true]
      constructor
      · rintro (h1 | ⟨h1, h2⟩)
        · exact Or.inl h1
        · exact Or.inr ⟨c, cs, rfl, h1, h2⟩
      · rintro (h1 | ⟨c', cs', heq, h1, h2⟩)
        · exact Or.inl h1
        · obtain ⟨rfl, rfl⟩ := List.cons.injEq .. ▸ heq
          exact Or.inr ⟨h1, h2⟩

/-! ## C2: the bookkeeping invariant of the result set -/

/-- C2 counterexample: a run over one module whose `after_all` hook raises
records a helper-error testcase without incrementing any summary counter, so
`sum(summary.values()) == len(testcases)` fails (the sums are 0 and 1). -/
theorem summary_sum_ne_testcases_cex :
    ¬ (sumSummary (execute_report_tests
          [{ location := "m",
             after_all := some (Behavior.exc "boom" "tb") }] 0).1.results.summary
        = (execute_report_tests
          [{ location := "m",
             after_all := some (Behavior.exc "boom" "tb") }] 0).1.results.testcases.length) := by
  decide

/-- C2 (amended): at every point of a run,
`len(testcases) == sum(summary.values()) + (number of helper-error
records)`: each record appended by `_add_success`, `_add_failure`,
`_add_error` or `_add_skip` is matched by exactly one increment of the
corresponding counter, but the synthetic records produced by
`_add_helper_error` for suite-level and teardown hook failures are appended
without incrementing any of the four counters, so
`sum(summary.values()) == len(testcases)` holds only when no helper error
was recorded. -/
theorem testcases_length_eq_sum_add_helpers (modules : List PyModule)
    (tt : Nat) :
    (execute_report_tests modules tt).1.results.testcases.length =
      sumSummary (execute_report_tests modules tt).1.results.summary +
        (execute_report_tests modules tt).1.helpers := by
  rw [execute_report_tests_fst]
  exact stateInv_run_all modules

/-! ## C3: outcome classification of an executed test body -/

theorem classify_results_emit (nm : String) (b : Behavior) (st : RunState)
    (e : Event) :
    (classify_outcome nm b (emit st e)).results =
      (classify_outcome nm b st).results := by
  cases b <;> rfl

/-- Exactly one record is appended by the classification ladder, and its
fields are determined by what the classified callable did. -/
theorem classify_spec (nm : String) (b : Behavior) (st : RunState) :
    ∃ rec : TestCase,
      (classify_outcome nm b st).results.testcases =
        st.results.testcases ++ [rec] ∧
      rec.name = nm ∧
      (b = Behavior.ret → rec.status = Status.passed) ∧
      (∀ e tb, b = Behavior.assertionError e tb →
        rec.status = Status.failure ∧
        rec.error = some (RED ++ (e ++ "\n" ++ tb) ++ RESET) ∧
        rec.traceback = some tb) ∧
      (∀ r tb, b = Behavior.skip r tb →
        rec.status = Status.skipped ∧
        rec.message = some ("SkipTest: " ++ r ++ "\n")) ∧
      (∀ e tb, b = Behavior.exc e tb →
        rec.status = Status.error ∧
        rec.error = some (YELLOW ++ (e ++ "\n" ++ tb) ++ RESET) ∧
        rec.traceback = some tb) := by
  cases b with
  | ret =>
      refine ⟨{ name := nm, status := Status.passed }, rfl, rfl,
        fun _ => rfl, ?_, ?_, ?_⟩ <;> rintro _ _ ⟨⟩
  | assertionError e tb =>
      refine ⟨_, rfl, rfl, ?_, ?_, ?_, ?_⟩
      · rintro ⟨⟩
      · rintro e' tb' ⟨⟩
        exact ⟨rfl, rfl, rfl⟩
      · rintro _ _ ⟨⟩
      · rintro _ _ ⟨⟩
  | skip r tb =>
      refine ⟨_, rfl, rfl, ?_, ?_, ?_, ?_⟩
      · rintro ⟨⟩
      · rintro _ _ ⟨⟩
      · rintro r' tb' ⟨⟩
        exact ⟨rfl, rfl⟩
      · rintro _ _ ⟨⟩
  | exc e tb =>
      refine ⟨_, rfl, rfl, ?_, ?_, ?_, ?_⟩
      · rintro ⟨⟩
      · rintro _ _ ⟨⟩
      · rintro _ _ ⟨⟩
      · rintro e' tb' ⟨⟩
        exact ⟨rfl, rfl, rfl⟩

theorem execute_test_no_after (m : PyModule) (t : TestSym) (st : RunState)
    (hf : t.isFunction = true) (ha : m.after = none) :
    execute_test m t st =
      run_body m t (m.location ++ "." ++ t.name) st := by
  cases hsk : t.skipMarked <;>
    simp [execute_test, hf, hsk, after_hook, ha]

theorem run_body_results (m : PyModule) (t : TestSym) (nm : String)
    (st : RunState) :
    (run_body m t nm st).results =
      (classify_outcome nm (effective_behavior m t) st).results := by
  cases hsk : t.skipMarked with
  | true =>
      simp only [run_body, effective_behavior, hsk, if_true]
      exact classify_results_emit ..
  | false =>
      cases hb : m.before with
      | none =>
          simp only [run_body, effective_behavior, hsk, hb,
            Bool.false_eq_true, if_false]
          exact classify_results_emit ..
      | some b =>
          cases b <;>
            simp only [run_body, effective_behavior, hsk, hb,
              Bool.false_eq_true, if_false] <;>
            first
              | exact (classify_results_emit ..).trans
                  (classify_results_emit ..)
              | exact classify_results_emit ..

/-- C3 (amended): for every executed test body (and per-test setup routed
into it): no exception yields a Passed outcome; an `AssertionError` yields a
Failed outcome carrying the stringified error and the full stack trace; the
`Skip` signal yields a Skipped outcome whose message is
`"SkipTest: " + reason + "\n"` (a trailing newline is appended to the
reason); any other exception yields an Errored outcome carrying the
stringified error and the full stack trace — and exactly one such outcome is
recorded per executed test. -/
theorem execute_test_classification (m : PyModule) (t : TestSym)
    (st : RunState) (hf : t.isFunction = true) (ha : m.after = none) :
    ∃ rec : TestCase,
      (execute_test m t st).results.testcases =
        st.results.testcases ++ [rec] ∧
      rec.name = m.location ++ "." ++ t.name ∧
      (effective_behavior m t = Behavior.ret →
        rec.status = Status.passed) ∧
      (∀ e tb, effective_behavior m t = Behavior.assertionError e tb →
        rec.status = Status.failure ∧
        rec.error = some (RED ++ (e ++ "\n" ++ tb) ++ RESET) ∧
        rec.traceback = some tb) ∧
      (∀ r tb, effective_behavior m t = Behavior.skip r tb →
        rec.status = Status.skipped ∧
        rec.message = some ("SkipTest: " ++ r ++ "\n")) ∧
      (∀ e tb, effective_behavior m t = Behavior.exc e tb →
        rec.status = Status.error ∧
        rec.error = some (YELLOW ++ (e ++ "\n" ++ tb) ++ RESET) ∧
        rec.traceback = some tb) := by
  have h1 := execute_test_no_after m t st hf ha
  have h2 := run_body_results m t (m.location ++ "." ++ t.name) st
  obtain ⟨rec, hrec, hname, hret, hassert, hskip, hexc⟩ :=
    classify_spec (m.location ++ "." ++ t.name) (effective_behavior m t) st
  exact ⟨rec, by rw [h1, h2, hrec], hname, hret, hassert, hskip, hexc⟩

/-- C3 witness: a concrete assertion-failing test in a module with no hooks,
run from the fresh state. -/
theorem execute_test_classification_witness :
    ∃ rec : TestCase,
      (execute_test { location := "m" }
          { name := "test_a", behavior := Behavior.assertionError "boom" "tb" }
          initState).results.testcases =
        initState.results.testcases ++ [rec] ∧
      rec.name = ("m" : String) ++ "." ++ "test_a" ∧
      (effective_behavior { location := "m" }
          { name := "test_a", behavior := Behavior.assertionError "boom" "tb" } =
            Behavior.ret →
        rec.status = Status.passed) ∧
      (∀ e tb, effective_behavior { location := "m" }
          { name := "test_a", behavior := Behavior.assertionError "boom" "tb" } =
            Behavior.assertionError e tb →
        rec.status = Status.failure ∧
        rec.error = some (RED ++ (e ++ "\n" ++ tb) ++ RESET) ∧
        rec.traceback = some tb) ∧
      (∀ r tb, effective_behavior { location := "m" }
          { name := "test_a", behavior := Behavior.assertionError "boom" "tb" } =
            Behavior.skip r tb →
        rec.status = Status.skipped ∧
        rec.message = some ("SkipTest: " ++ r ++ "\n")) ∧
      (∀ e tb, effective_behavior { location := "m" }
          { name := "test_a", behavior := Behavior.assertionError "boom" "tb" } =
            Behavior.exc e tb →
        rec.status = Status.error ∧
        rec.error = some (YELLOW ++ (e ++ "\n" ++ tb) ++ RESET) ∧
        rec.traceback = some tb) :=
  execute_test_classification { location := "m" }
    { name := "test_a", behavior := Behavior.assertionError "boom" "tb" }
    initState rfl rfl

/-- C3 counterexample: the claim states the Skipped message is exactly
`"SkipTest: " + reason`, but the code appends a newline: a test raising
`Skip("flaky")` records the message `"SkipTest: flaky\n"`, which differs
from `"SkipTest: flaky"`. -/
theorem skip_message_trailing_newline_cex :
    ((execute_test { location := "m" }
        { name := "test_a", behavior := Behavior.skip "flaky" "tb" }
        initState).results.testcases.map fun c => c.message) =
      [some "SkipTest: flaky\n"] ∧
    ("SkipTest: flaky\n" : String) ≠ "SkipTest: flaky" := by
  decide

/-! ## C4: `before_all` raising `Skip` aborts the whole suite -/

/-- C4: if the suite setup `before_all` raises the `Skip` signal, exactly
one Skipped outcome keyed at the suite location is recorded, no test-level
outcome is produced for that suite regardless of how many qualifying test
symbols it contains, and neither any test nor the suite teardown `after_all`
is ever invoked (the event trace gains only the `before_all` call). -/
theorem before_all_skip_aborts_suite (m : PyModule) (st : RunState)
    (r tb : String) (h : m.before_all = some (Behavior.skip r tb)) :
    ∃ rec : TestCase,
      (run_module m st).results.testcases =
        st.results.testcases ++ [rec] ∧
      rec.name = m.location ∧
      rec.status = Status.skipped ∧
      rec.message = some ("SkipTest: " ++ r ++ "\n") ∧
      (run_module m st).events =
        st.events ++ [Event.beforeAllCall m.location] ∧
      (run_module m st).results.summary =
        { st.results.summary with
          skips := st.results.summary.skips + 1 } := by
  have hb : before_all_hook m st =
      (add_skip m.location ("SkipTest: " ++ r ++ "\n")
        (emit st (Event.beforeAllCall m.location)), true) := by
    simp [before_all_hook, h]
  have hrm : run_module m st =
      add_skip m.location ("SkipTest: " ++ r ++ "\n")
        (emit st (Event.beforeAllCall m.location)) := by
    simp [run_module, hb]
  refine ⟨{ name := m.location,
            status := Status.skipped,
            msg := some (BLUE ++ (srep (m.location.length + FAIL_LENGTH) '=' ++
              "\nSKIP: " ++ m.location ++ "\n" ++
              srep (m.location.length + FAIL_LENGTH) '-') ++ RESET),
            error := some (BLUE ++ ("SkipTest: " ++ r ++ "\n") ++ RESET),
            message := some ("SkipTest: " ++ r ++ "\n") },
    ?_, rfl, rfl, rfl, ?_, ?_⟩ <;> rw [hrm] <;> rfl

/-- A concrete suite with two qualifying tests whose `before_all` raises
`Skip("why")`. -/
def suiteSkipAll : PyModule :=
  { location := "m",
    before_all := some (Behavior.skip "why" "tb"),
    after_all := some Behavior.ret,
    symbols := [{ name := "test_a", behavior := Behavior.ret },
      { name := "test_b", behavior := Behavior.ret }] }

/-- C4 witness: the suite `suiteSkipAll` run from the fresh state. -/
theorem before_all_skip_aborts_suite_witness :
    ∃ rec : TestCase,
      (run_module suiteSkipAll initState).results.testcases =
        initState.results.testcases ++ [rec] ∧
      rec.name = suiteSkipAll.location ∧
      rec.status = Status.skipped ∧
      rec.message = some ("SkipTest: " ++ "why" ++ "\n") ∧
      (run_module suiteSkipAll initState).events =
        initState.events ++ [Event.beforeAllCall suiteSkipAll.location] ∧
      (run_module suiteSkipAll initState).results.summary =
        { initState.results.summary with
          skips := initState.results.summary.skips + 1 } :=
  before_all_skip_aborts_suite suiteSkipAll initState "why" "tb" rfl

/-! ## C5: the skip decorator -/

/-- A concrete module carrying both per-test hooks and one skip-decorated
test. -/
def modDecoratedSkip : PyModule :=
  { location := "m",
    before := some Behavior.ret,
    after := some Behavior.ret,
    symbols := [skipDecorator "flaky"
      { name := "test_a", behavior := Behavior.ret }] }

/-- C5 counterexample: the claim states that the per-test teardown `after`
still runs for a test marked by the skip decorator; but `_execute_test`
guards the `after` call with the same skip-marker check as `before`, so for
the decorated test of `modDecoratedSkip` the run's event trace contains only
the wrapper invocation — no `before` call and no `after` call — even though
both hooks exist on the module. -/
theorem skip_decorated_after_not_invoked_cex :
    (execute_report_tests [modDecoratedSkip] 0).1.events =
      [Event.testCall "m.test_a"] ∧
    modDecoratedSkip.after = some Behavior.ret ∧
    modDecoratedSkip.before = some Behavior.ret := by
  decide

/-- C5 (amended): running a test decorated with the skip decorator carrying
reason `"flaky"` yields exactly one Skipped outcome whose message contains
`"flaky"`, and its per-test setup hook `before` is never invoked; but its
per-test teardown hook `after` is never invoked either — the same
skip-marker check that suppresses `before` also guards the call to `after`,
so the only invocation event of the execution is the decorated wrapper
itself. -/
theorem skip_decorated_flaky_outcome (m : PyModule) (t : TestSym)
    (st : RunState) :
    ∃ rec : TestCase,
      (execute_test m (skipDecorator "flaky" t) st).results.testcases =
        st.results.testcases ++ [rec] ∧
      rec.name = m.location ++ "." ++ t.name ∧
      rec.status = Status.skipped ∧
      rec.message = some ("SkipTest: " ++ "flaky" ++ "\n") ∧
      (execute_test m (skipDecorator "flaky" t) st).events =
        st.events ++ [Event.testCall (m.location ++ "." ++ t.name)] ∧
      (execute_test m (skipDecorator "flaky" t) st).results.summary =
        { st.results.summary with
          skips := st.results.summary.skips + 1 } := by
  have h1 : execute_test m (skipDecorator "flaky" t) st =
      add_skip (m.location ++ "." ++ t.name)
        ("SkipTest: " ++ "flaky" ++ "\n")
        (emit st (Event.testCall (m.location ++ "." ++ t.name))) := by
    simp only [execute_test, skipDecorator, run_body, classify_outcome,
      if_true]
  refine ⟨{ name := m.location ++ "." ++ t.name,
            status := Status.skipped,
            msg := some (BLUE ++
              (srep ((m.location ++ "." ++ t.name).length + FAIL_LENGTH) '=' ++
                "\nSKIP: " ++ (m.location ++ "." ++ t.name) ++ "\n" ++
                srep ((m.location ++ "." ++ t.name).length + FAIL_LENGTH) '-') ++
              RESET),
            error := some (BLUE ++ ("SkipTest: " ++ "flaky" ++ "\n") ++ RESET),
            message := some ("SkipTest: " ++ "flaky" ++ "\n") },
    ?_, rfl, rfl, rfl, ?_, ?_⟩ <;> rw [h1] <;> rfl

/-! ## C6: a failing `after` does not disturb the test's own outcome -/

/-- A concrete module whose `after` hook raises, with one passing test. -/
def modAfterRaises : PyModule :=
  { location := "m",
    after := some (Behavior.exc "boom" "tb"),
    symbols := [{ name := "test_a", behavior := Behavior.ret }] }

/-- C6 counterexample: the claim keys the teardown helper-error outcome at
`location:symbol`; but the runner keys it at the qualified test name
`location + "." + symbol` — after the passed test of `modAfterRaises` whose
`after` raised, both records are keyed `"m.test_a"` and no record keyed
`"m:test_a"` exists. -/
theorem after_error_key_cex :
    ((execute_test modAfterRaises
        { name := "test_a", behavior := Behavior.ret }
        initState).results.testcases.map fun c => (c.name, c.status)) =
      [("m.test_a", Status.passed), ("m.test_a", Status.error)] ∧
    (∀ c ∈ (execute_test modAfterRaises
        { name := "test_a", behavior := Behavior.ret }
        initState).results.testcases, c.name ≠ "m:test_a") := by
  decide

/-- C6 (amended): if the per-test teardown `after` raises an exception after
a test that Passed, the result set contains the original Passed outcome
unchanged plus one separate Errored helper-outcome keyed at the test's
qualified name `location + "." + symbol`; no recorded outcome is edited or
overwritten, and only the `passes` counter moves. -/
theorem after_error_separate_helper_outcome (m : PyModule) (t : TestSym)
    (st : RunState) (e tb : String)
    (hf : t.isFunction = true) (hs : t.skipMarked = false)
    (hb : m.before = none) (hbody : t.behavior = Behavior.ret)
    (ha : m.after = some (Behavior.exc e tb)) :
    ∃ hrec : TestCase,
      (execute_test m t st).results.testcases =
        st.results.testcases ++
          [{ name := m.location ++ "." ++ t.name, status := Status.passed },
            hrec] ∧
      hrec.name = m.location ++ "." ++ t.name ∧
      hrec.status = Status.error ∧
      (execute_test m t st).results.summary =
        { st.results.summary with
          passes := st.results.summary.passes + 1 } := by
  have h1 : execute_test m t st =
      add_helper_error (m.location ++ "." ++ t.name) e tb
        (emit (add_success (m.location ++ "." ++ t.name)
            (emit st (Event.testCall (m.location ++ "." ++ t.name))))
          (Event.afterCall (m.location ++ "." ++ t.name))) := by
    simp only [execute_test, hf, if_true, hs, Bool.false_eq_true, if_false,
      run_body, hb, hbody, classify_outcome, after_hook, ha]
  refine ⟨{ name := m.location ++ "." ++ t.name,
            status := Status.error,
            msg := some (YELLOW ++
              (srep ((m.location ++ "." ++ t.name).length + ERROR_LENGTH) '=' ++
                "\nERROR: " ++ (m.location ++ "." ++ t.name) ++ "\n" ++
                srep ((m.location ++ "." ++ t.name).length + ERROR_LENGTH) '-') ++
              RESET),
            error := some (RED ++ (e ++ "\n" ++ tb) ++ RESET),
            traceback := some tb },
    ?_, rfl, rfl, by rw [h1]; rfl⟩
  rw [h1]
  simp [add_helper_error, add_success, emit]

/-- C6 witness: the passing test of `modAfterRaises`, run from the fresh
state. -/
theorem after_error_separate_helper_outcome_witness :
    ∃ hrec : TestCase,
      (execute_test modAfterRaises
          { name := "test_a", behavior := Behavior.ret }
          initState).results.testcases =
        initState.results.testcases ++
          [{ name := modAfterRaises.location ++ "." ++ "test_a",
             status := Status.passed }, hrec] ∧
      hrec.name = modAfterRaises.location ++ "." ++ "test_a" ∧
      hrec.status = Status.error ∧
      (execute_test modAfterRaises
          { name := "test_a", behavior := Behavior.ret }
          initState).results.summary =
        { initState.results.summary with
          passes := initState.results.summary.passes + 1 } :=
  after_error_separate_helper_outcome modAfterRaises
    { name := "test_a", behavior := Behavior.ret }
    initState "boom" "tb" rfl rfl rfl rfl rfl

/-! ## C7: the exit code -/

/-- C7: for every run the returned exit code is `0` iff the final summary
has zero failures and zero errors (passes, skips, and helper-error records
— which touch no counter — do not affect it), and `1` otherwise. -/
theorem exit_code_zero_iff_no_failures_errors (modules : List PyModule)
    (tt : Nat) :
    ((execute_report_tests modules tt).2 = 0 ↔
      (execute_report_tests modules tt).1.results.summary.failures = 0 ∧
      (execute_report_tests modules tt).1.results.summary.errors = 0) ∧
    ((execute_report_tests modules tt).2 = 0 ∨
      (execute_report_tests modules tt).2 = 1) := by
  rw [execute_report_tests_snd, execute_report_tests_fst]
  dsimp only
  split <;> rename_i h <;> omega

/-! ## C8: the module-name computation of the unit loader -/

/-- C8: the claim (and the loader's evident intent) is that the file's base
name with its extension removed becomes the final module-name segment, e.g.
`test_copy.py` yields `test_copy`; but `_import_file_module` computes the
base name with `basename_with_extension.rstrip(".py")`, and Python's
`rstrip` removes every trailing character drawn from the set `.`, `p`, `y`
rather than the literal extension, so `test_copy.py` yields the segment
`test_co` (and `import_module` is then invoked with a name that does not
correspond to any file). -/
theorem import_file_module_name_rstrip_bug :
    import_file_module_name "/r/sub/test_copy.py" "/r" =
      (".test_co", ".sub") ∧
    pyRstrip "test_copy.py" ['.', 'p', 'y'] = "test_co" ∧
    ("test_co" : String) ≠ "test_copy" := by
  decide

/-! ## C9: deferred (batch) aggregation -/

/-- C9: deferred aggregation is a homomorphism over runs: adding a run's
results to the cross-run aggregate yields the previous aggregate with each
of the four summary counts increased by the run's corresponding count, the
run's testcase list concatenated in order onto the accumulated list, and the
run's elapsed time added to the accumulated elapsed time. -/
theorem add_to_full_results_homomorphism (full res : Results) :
    (add_to_full_results full res).summary.passes =
        full.summary.passes + res.summary.passes ∧
    (add_to_full_results full res).summary.failures =
        full.summary.failures + res.summary.failures ∧
    (add_to_full_results full res).summary.errors =
        full.summary.errors + res.summary.errors ∧
    (add_to_full_results full res).summary.skips =
        full.summary.skips + res.summary.skips ∧
    (add_to_full_results full res).testcases =
        full.testcases ++ res.testcases ∧
    (add_to_full_results full res).time_taken =
        full.time_taken + res.time_taken :=
  ⟨rfl, rfl, rfl, rfl, rfl, rfl⟩
